import Mathlib

/-!
Verification of the Kozi chatbot conversation-orchestration core.

This file gives a shallow embedding, in Lean, of the JavaScript code of the
repository (the CV-generation state machine of
`src/services/cvGenerationService.js`, the chat orchestrator of
`src/services/chatService.js`, the real-time jobs client of the
authenticated `chatService.js` variant, the `jobsService.js` jobs fetcher,
and `src/services/ragService.js`), together with theorems settling the
frozen claims about that code.

Conventions of the embedding:
* JavaScript values that flow through the job-normalization code are
  modelled by `JVal` (string / number / null); an absent object property is
  `Option.none`.  Nullish coalescing (`??`), truthiness, `String(...)`,
  `Number(...)` and `parseInt(...)` are modelled by the `jv*`/`js*` helpers
  below.  `Number`/`parseInt` are modelled on integer-valued inputs (the
  only numerals the code and the claims exercise); fractional syntax is out
  of scope.
* JavaScript regular expressions are modelled by the tiny backtracking
  matcher `Rx`/`rxTest` (word boundaries, character classes, alternation,
  option, and Kleene star over a character class - exactly the constructs
  the source patterns use).  `String.prototype.toLowerCase` is modelled by
  `jsToLower` (character-wise lowering, faithful on ASCII).
* Asynchronous collaborator calls (SQL pool, OpenAI, upstream HTTP) are
  modelled by explicit parameters carrying the collaborator outcome of each
  call, and thrown exceptions by `Except`/explicit error components; the
  persisted session state is threaded explicitly, so a theorem can speak
  about what a failed call leaves behind.
-/

namespace Kozi

/-- A JavaScript value as it appears in the raw job records handled by the
normalization code: a string, a (numeric, integer-valued) number, or
`null`.  An absent property is represented by `Option.none` outside this
type. -/
inductive JVal where
  | str (s : String)
  | num (n : Int)
  | null
deriving DecidableEq, Repr

/-- JavaScript truthiness of a `JVal` (`""`, `0` and `null` are falsy). -/
def jvTruthy : JVal → Bool
  | .str s => s ≠ ""
  | .num n => n ≠ 0
  | .null => false

/-- Nullish test: `null` and `undefined` (`Option.none`) are nullish. -/
def jvNullish : Option JVal → Bool
  | none => true
  | some .null => true
  | some _ => false

/-- `a ?? b` for two possibly-absent operands. -/
def jvCoalesce (a b : Option JVal) : Option JVal :=
  if jvNullish a then b else a

/-- `a ?? b` where the right operand is a present value (e.g. a literal). -/
def jvOr (a : Option JVal) (b : JVal) : JVal :=
  match jvCoalesce a (some b) with
  | some v => v
  | none => b

/-- `a || b` on a present value (JavaScript logical-or: falsy left operand
selects the right one). -/
def jvOrElse (a b : JVal) : JVal :=
  if jvTruthy a then a else b

/-- `String(v)` / `v.toString()` for the values `JVal` covers. -/
def jsToString : JVal → String
  | .str s => s
  | .num n => toString n
  | .null => "null"

/-- Character-wise `toLowerCase` (faithful on the ASCII text the code
handles). -/
def jsToLower (s : String) : String :=
  String.mk (s.data.map Char.toLower)

/-- Parse an optional sign followed by decimal digits; `none` when the
character list is not exactly of that shape.  Backbone of the `Number` and
`parseInt` models. -/
def parseSignedDigits (cs : List Char) : Option Int :=
  let core (ds : List Char) : Option Nat :=
    if ds = [] ∨ ¬ ds.all Char.isDigit then none
    else some (ds.foldl (fun a c => a * 10 + (c.toNat - 48)) 0)
  match cs with
  | '-' :: rest => (core rest).map (fun n => -(n : Int))
  | '+' :: rest => (core rest).map (fun n => (n : Int))
  | _ => (core cs).map (fun n => (n : Int))

/-- `Number(v)` (`none` = `NaN`), modelled on the integer-valued inputs the
code exercises.  A string of only whitespace converts to `0`, as in
JavaScript. -/
def jsNumber : JVal → Option Int
  | .num n => some n
  | .null => some 0
  | .str s =>
    let t := s.data.dropWhile Char.isWhitespace |>.reverse.dropWhile Char.isWhitespace |>.reverse
    if t = [] then some 0 else parseSignedDigits t

/-- `parseInt(v, 10)` (`none` = `NaN`): stringify, skip leading whitespace,
parse the longest signed-digit prefix. -/
def jsParseInt (v : JVal) : Option Int :=
  let cs := (jsToString v).data.dropWhile Char.isWhitespace
  match cs with
  | '-' :: rest =>
    let ds := rest.takeWhile Char.isDigit
    if ds = [] then none else (parseSignedDigits ds).map (fun n => -n)
  | '+' :: rest =>
    let ds := rest.takeWhile Char.isDigit
    if ds = [] then none else parseSignedDigits ds
  | _ =>
    let ds := cs.takeWhile Char.isDigit
    if ds = [] then none else parseSignedDigits ds

/-- `String.prototype.includes` on character lists. -/
def containsSub (hay sub : List Char) : Bool :=
  if sub.isPrefixOf hay then true
  else
    match hay with
    | [] => false
    | _ :: t => containsSub t sub

/-! ### A small regular-expression matcher

The source decides intents with a fixed set of JavaScript regexes built
from literals, alternation `(a|b)`, optional groups `(...)?`, `\s+`, `\s*`,
`.*` and word boundaries `\b`.  `Rx` embeds exactly those constructs and
`rxTest` implements `RegExp.prototype.test` (match anywhere in the
string). -/

/-- Regular-expression abstract syntax: empty word, single character from a
class, sequencing, alternation, option, Kleene star over a character class,
and the zero-width word-boundary assertion `\b`. -/
inductive Rx where
  | eps
  | cls (p : Char → Bool)
  | seq (a b : Rx)
  | alt (a b : Rx)
  | opt (a : Rx)
  | starC (p : Char → Bool)
  | wordB

/-- JavaScript word characters (`[A-Za-z0-9_]`), as used by `\b`. -/
def isWordChar (c : Char) : Bool :=
  c.isAlphanum || c = '_'

/-- Is the current position (between `prev` and the head of `s`) a word
boundary? -/
def atBoundary (prev : Option Char) (s : List Char) : Bool :=
  let w1 := match prev with | some c => isWordChar c | none => false
  let w2 := match s with | c :: _ => isWordChar c | [] => false
  w1 ≠ w2

/-- Try the continuation after consuming `0, 1, 2, ...` characters of class
`p` (the Kleene-star case of the matcher). -/
def starRun (p : Char → Bool) (prev : Option Char) (s : List Char)
    (k : Option Char → List Char → Bool) : Bool :=
  k prev s ||
    match s with
    | [] => false
    | c :: rest => p c && starRun p (some c) rest k

/-- Backtracking matcher in continuation-passing style: `mtch r prev s k`
holds when some prefix of `s` matches `r` (with `prev` the character just
before `s`, for `\b`) and `k` accepts the remainder. -/
def mtch : Rx → Option Char → List Char → (Option Char → List Char → Bool) → Bool
  | .eps, prev, s, k => k prev s
  | .cls p, _, s, k =>
    match s with
    | [] => false
    | c :: rest => p c && k (some c) rest
  | .seq a b, prev, s, k => mtch a prev s (fun prev2 s2 => mtch b prev2 s2 k)
  | .alt a b, prev, s, k => mtch a prev s k || mtch b prev s k
  | .opt a, prev, s, k => mtch a prev s k || k prev s
  | .starC p, prev, s, k => starRun p prev s k
  | .wordB, prev, s, k => atBoundary prev s && k prev s

/-- Search for a match of `r` starting at any position of `s`. -/
def rxSearchFrom (r : Rx) (prev : Option Char) (s : List Char) : Bool :=
  mtch r prev s (fun _ _ => true) ||
    match s with
    | [] => false
    | c :: rest => rxSearchFrom r (some c) rest

/-- `r.test(s)` for a JavaScript regex without anchors. -/
def rxTest (r : Rx) (s : String) : Bool :=
  rxSearchFrom r none s.data

/-- A literal string as a regex. -/
def rxLit (s : String) : Rx :=
  s.data.foldr (fun c r => .seq (.cls (fun d => d = c)) r) .eps

/-- `(w1|w2|...)` over literal alternatives. -/
def rxAlts (l : List String) : Rx :=
  match l with
  | [] => .eps
  | w :: ws => ws.foldl (fun r v => .alt r (rxLit v)) (rxLit w)

/-- `\s+` (one or more whitespace characters). -/
def rxWsPlus : Rx :=
  .seq (.cls Char.isWhitespace) (.starC Char.isWhitespace)

/-- `\s*`. -/
def rxWsStar : Rx :=
  .starC Char.isWhitespace

/-- `.*` (`.` excludes line terminators). -/
def rxDotStar : Rx :=
  .starC (fun c => ¬ (c = '\n' ∨ c = '\r'))

/-- Sequence a list of regexes. -/
def rxSeqs (l : List Rx) : Rx :=
  match l with
  | [] => .eps
  | r :: rs => rs.foldl .seq r

/-! ### Intent classification (`ChatService._detectIntent`, `src/services/chatService.js`) -/

/-- The four intents `_detectIntent` can return. -/
inductive Intent where
  | cv_generation
  | jobs
  | job_application
  | general
deriving DecidableEq, Repr

/-- `/\b(create|write|make|generate|build|prepare|need)\s+(a\s+)?(cv|resume|curriculum vitae)\b/` -/
def cvRx1 : Rx := rxSeqs [.wordB,
  rxAlts ["create", "write", "make", "generate", "build", "prepare", "need"],
  rxWsPlus, .opt (.seq (rxLit "a") rxWsPlus),
  rxAlts ["cv", "resume", "curriculum vitae"], .wordB]

/-- `/\b(cv|resume)\s+(creation|generation|preparation|help|assistance)\b/` -/
def cvRx2 : Rx := rxSeqs [.wordB, rxAlts ["cv", "resume"], rxWsPlus,
  rxAlts ["creation", "generation", "preparation", "help", "assistance"], .wordB]

/-- `/\bhelp.*cv\b/` -/
def cvRx3 : Rx := rxSeqs [.wordB, rxLit "help", rxDotStar, rxLit "cv", .wordB]

/-- `/\b(find|search|look for|show|available|open)\s+(jobs?|positions?|opportunities?|vacancies?)\b/` -/
def jobsRx1 : Rx := rxSeqs [.wordB,
  rxAlts ["find", "search", "look for", "show", "available", "open"], rxWsPlus,
  .alt (.alt (.seq (rxLit "job") (.opt (rxLit "s")))
             (.seq (rxLit "position") (.opt (rxLit "s"))))
       (.alt (.seq (rxLit "opportunitie") (.opt (rxLit "s")))
             (.seq (rxLit "vacancie") (.opt (rxLit "s")))), .wordB]

/-- `/\bjobs?\s+(available|near me|in|for)\b/` -/
def jobsRx2 : Rx := rxSeqs [.wordB, rxLit "job", .opt (rxLit "s"), rxWsPlus,
  rxAlts ["available", "near me", "in", "for"], .wordB]

/-- `/\bwhat\s+jobs?\b/` -/
def jobsRx3 : Rx := rxSeqs [.wordB, rxLit "what", rxWsPlus, rxLit "job", .opt (rxLit "s"), .wordB]

/-- `/\bhiring\b/` -/
def jobsRx4 : Rx := rxSeqs [.wordB, rxLit "hiring", .wordB]

/-- `/\b(apply|applying|application)\s+(for|to)?\s*(job|position)\b/` -/
def appRx1 : Rx := rxSeqs [.wordB, rxAlts ["apply", "applying", "application"], rxWsPlus,
  .opt (rxAlts ["for", "to"]), rxWsStar, rxAlts ["job", "position"], .wordB]

/-- `/\bhow.*apply\b/` -/
def appRx2 : Rx := rxSeqs [.wordB, rxLit "how", rxDotStar, rxLit "apply", .wordB]

/-- The CV-generation test of `_detectIntent` (disjunction of its three
regexes) applied to the lowercased message text. -/
def cvIntentMatch (text : String) : Bool :=
  rxTest cvRx1 text || rxTest cvRx2 text || rxTest cvRx3 text

/-- The job-search test of `_detectIntent`. -/
def jobsIntentMatch (text : String) : Bool :=
  rxTest jobsRx1 text || rxTest jobsRx2 text || rxTest jobsRx3 text || rxTest jobsRx4 text

/-- The job-application test of `_detectIntent`. -/
def appIntentMatch (text : String) : Bool :=
  rxTest appRx1 text || rxTest appRx2 text

/-- `ChatService._detectIntent`: lowercase the message, then test the three
pattern groups in order; the first group that matches wins, else
`general`. -/
def detectIntent (message : String) : Intent :=
  let text := jsToLower message
  if cvIntentMatch text then .cv_generation
  else if jobsIntentMatch text then .jobs
  else if appIntentMatch text then .job_application
  else .general

/-- The preferences object built by `ChatService._extractJobPreferences`
(absent key = property never set). -/
structure JobPrefs where
  category : Option String := none
  location : Option String := none
  work_type : Option String := none
deriving DecidableEq, Repr

/-- `ChatService._extractJobPreferences` (`src/services/chatService.js`):
first matching keyword of each fixed list, by substring search on the
lowercased message. -/
def extractJobPreferences (message : String) : JobPrefs :=
  let text := jsToLower message
  let category :=
    (["cleaning", "security", "childcare", "cooking", "gardening", "driver"]
      : List String).find? (fun cat => containsSub text.data cat.data)
  let location :=
    (["kigali", "nyarugenge", "gasabo", "kicukiro"]
      : List String).find? (fun loc => containsSub text.data loc.data)
  let work_type :=
    if containsSub text.data "full-time".data || containsSub text.data "full time".data then
      some "full-time"
    else if containsSub text.data "part-time".data || containsSub text.data "part time".data then
      some "part-time"
    else none
  { category := category, location := location, work_type := work_type }

/-! ### The CV generation state machine (`src/services/cvGenerationService.js`)

`CVGenerationService` persists, inside the chat session's context, a JSON
object `cv_generation = {current_step, completed_steps, cv_data, user_id,
completed?}`.  We model the persisted object by `CVFull α` (with `α` the
type of one step's parsed payload, opaque to the state machine) and the
stored `context.cv_generation` slot by `Option (CVFull α)`.  Prompt strings
returned to the user are represented by tags (`CVPrompt`), since no claim
depends on their literal text. -/

namespace CVGen

/-- `this.steps`: the canonical ordered list of CV steps. -/
def steps : List String :=
  ["contact_info", "professional_summary", "work_experience", "education",
   "skills", "certifications", "languages"]

/-- JavaScript `Array.prototype.indexOf`: index of the first occurrence, or
`-1`. -/
def jsIndexOf : List String → String → Int
  | [], _ => -1
  | a :: as, x =>
    if a = x then 0
    else
      let r := jsIndexOf as x
      if r < 0 then -1 else r + 1

/-- `steps[i]` for a JavaScript (possibly negative) index: `undefined`
outside the array. -/
def stepAt (i : Int) : Option String :=
  if i < 0 then none else steps.get? i.toNat

/-- The persisted CV-generation state.  `completed` is absent (`false`) in
everything `CVGenerationService` itself saves; the chat orchestrator's flow
handler merges `completed: true` into the stored object on cancel or
finish. -/
structure CVFull (α : Type) where
  current_step : String
  completed_steps : List String
  cv_data : List (String × α)
  completed : Bool := false
deriving DecidableEq, Repr

/-- `state.cv_data[step] = payload` on the association-list model of
`cv_data`. -/
def setData {α : Type} (d : List (String × α)) (k : String) (v : α) : List (String × α) :=
  match d with
  | [] => [(k, v)]
  | (k2, v2) :: rest => if k2 = k then (k, v) :: rest else (k2, v2) :: setData rest k v

/-- The successful-parse core of `CVGenerationService.processStep`, as it
affects the *persisted* state: store the payload under the current step,
append the step to `completed_steps`, and, when a next step exists, advance
`current_step` and save; on the last step the service generates the final
CV and returns without saving, so the persisted state is unchanged.
Returns `(next step if any, persisted state after the call)`. -/
def processStepCore {α : Type} (st : CVFull α) (currentStep : String) (parsed : α) :
    Option String × CVFull α :=
  let st2 : CVFull α :=
    { st with
      cv_data := setData st.cv_data currentStep parsed
      completed_steps := st.completed_steps ++ [currentStep] }
  match stepAt (jsIndexOf steps currentStep + 1) with
  | some nextStep => (some nextStep, { st2 with current_step := nextStep })
  | none => (none, st)

/-- `{` (written via its code point to keep brace characters out of string
and character literals). -/
def lbrace : Char := Char.ofNat 123

/-- `}` -/
def rbrace : Char := Char.ofNat 125

/-- Index of the first occurrence of `c`. -/
def idxOfFirst (c : Char) : List Char → Option Nat
  | [] => none
  | a :: as =>
    if a = c then some 0 else (idxOfFirst c as).map (· + 1)

/-- Index of the last occurrence of `c`. -/
def idxOfLast (c : Char) (s : List Char) : Option Nat :=
  (idxOfFirst c s.reverse).map (fun i => s.length - 1 - i)

/-- `response.match(/\{[\s\S]*\}/)`: the (greedy, leftmost) match runs from
the first `{` to the last `}`; there is a match exactly when the first `{`
precedes the last `}`. -/
def jsonExtract (s : List Char) : Option (List Char) :=
  match idxOfFirst lbrace s, idxOfLast rbrace s with
  | some i, some j => if i < j then some ((s.drop i).take (j - i + 1)) else none
  | _, _ => none

/-- `CVGenerationService.parseStepInput`, abstracted over the JSON parser
(`parse s = none` models `JSON.parse` throwing on `s`) and given the
text-generation collaborator's `response`: extract the first-to-last brace
span and parse it; `none` models the method throwing (`Failed to parse AI
response`, or a `JSON.parse` error). -/
def parseStepInput {α : Type} (parse : String → Option α) (response : String) : Option α :=
  match jsonExtract response.data with
  | none => none
  | some sub => parse (String.mk sub)

/-- `CVGenerationService.processStep`, with the persisted
`context.cv_generation` slot threaded through.  The first component is the
call's outcome (`Except.error` models the method throwing, which happens
when no state exists or when `parseStepInput` fails; `Except.ok` carries
the next step, `none` meaning the flow finished).  The second component is
the persisted slot after the call: it changes only when the method reaches
its save of the advanced state. -/
def processStepSt {α : Type} (store : Option (CVFull α)) (currentStep : String)
    (response : String) (parse : String → Option α) :
    Except Unit (Option String) × Option (CVFull α) :=
  match store with
  | none => (.error (), store)
  | some st =>
    match parseStepInput parse response with
    | none => (.error (), store)
    | some parsed =>
      let (nextStep, persisted) := processStepCore st currentStep parsed
      (.ok nextStep, some persisted)

/-- Which prompt text `startCVGeneration` returns (the literal prompt
strings are data the claims do not inspect). -/
inductive CVPrompt where
  | resumeOrRestart
  | stepPrompt (step : String)
deriving DecidableEq, Repr

/-- Result shape of `CVGenerationService.startCVGeneration`. -/
structure StartResult where
  message : CVPrompt
  currentStep : String
  hasProgress : Bool
deriving DecidableEq, Repr

/-- `CVGenerationService.startCVGeneration`: if `getCVGenerationState`
returns *any* stored object, answer with the resume/restart prompt,
that object's `current_step` and `hasProgress = true`, creating nothing;
otherwise create and save the initial state and return the `contact_info`
prompt with `hasProgress = false`.  Returns the result together with the
stored slot after the call. -/
def startCVGeneration {α : Type} (existing : Option (CVFull α)) :
    StartResult × Option (CVFull α) :=
  match existing with
  | some st =>
    ({ message := .resumeOrRestart, currentStep := st.current_step, hasProgress := true },
     existing)
  | none =>
    let fresh : CVFull α :=
      { current_step := "contact_info", completed_steps := [], cv_data := [] }
    ({ message := .stepPrompt "contact_info", currentStep := "contact_info",
       hasProgress := false },
     some fresh)

/-- The initial persisted state created by `startCVGeneration`. -/
def initState (α : Type) : CVFull α :=
  { current_step := "contact_info", completed_steps := [], cv_data := [] }

/-- One *successful* `processStep` call in the orchestrated flow: the
caller passes the persisted `current_step`, and the persisted state becomes
whatever the call leaves stored. -/
def runStep {α : Type} (st : CVFull α) (parsed : α) : CVFull α :=
  (processStepCore st st.current_step parsed).2

/-- The persisted state after an ordered sequence of successful
`processStep` calls. -/
def runSteps {α : Type} (payloads : List α) : CVFull α :=
  payloads.foldl runStep (initState α)

end CVGen

/-! ### The conversation orchestrator (`src/services/chatService.js`)

`ChatService.sendMessage` appends the inbound message, loads the session,
and either resumes the CV flow or dispatches on the detected intent; any
exception of the dispatched handler is caught and replaced by the fixed
generic apology.  The intent handlers call collaborators that are outside
the core (profile service, DB job models, OpenAI), so their outcomes are
parameters: `handle intent` is the chosen handler's result (`Except.error`
models it throwing).  The CV-flow handler `_handleCVGenerationFlow` is
modelled concretely (it is the subject of claim C2); it writes only the
session context, never the transcript, which the types make explicit. -/

namespace Chat

/-- `/\b(cancel|stop|quit|exit)\b/i` (case-insensitivity via testing the
lowercased message). -/
def cancelRx : Rx := rxSeqs [.wordB, rxAlts ["cancel", "stop", "quit", "exit"], .wordB]

/-- Which text `_handleCVGenerationFlow` answers with (tags for the literal
strings, which no claim inspects). -/
inductive FlowMsg where
  | cancelled
  | saved (nextStep : String)
  | congrats
  | rephrase
deriving DecidableEq, Repr

/-- `ChatService._handleCVGenerationFlow`: cancel check, then
`processStep`; a throwing `processStep` is caught and answered with the
please-rephrase text.  `store` is the persisted `context.cv_generation`
slot and `cvState` the state object `sendMessage` read from it;
`response`/`parse` are the text-generation outcome and the JSON parser for
the one `parseStepInput` call.  Returns the slot after the call and the
reply. -/
def handleCVGenerationFlow {α : Type} (store : Option (CVGen.CVFull α))
    (cvState : CVGen.CVFull α) (message : String) (response : String)
    (parse : String → Option α) : Option (CVGen.CVFull α) × FlowMsg :=
  if rxTest cancelRx (jsToLower message) then
    (some { cvState with completed := true }, .cancelled)
  else
    match CVGen.processStepSt store cvState.current_step response parse with
    | (.error _, store2) => (store2, .rephrase)
    | (.ok (some nextStep), store2) => (store2, .saved nextStep)
    | (.ok none, _) => (some { cvState with completed := true }, .congrats)

/-- Sender tag of a transcript turn. -/
inductive Sender where
  | user
  | assistant
deriving DecidableEq, Repr

/-- The session as `sendMessage` sees it: the transcript plus the
`cv_generation` slot of the context (the only context entry `sendMessage`
reads). -/
structure SessionS (α : Type) where
  messages : List (String × Sender)
  cvGen : Option (CVGen.CVFull α)

/-- `ChatSession.addMessage`: append one turn to the transcript. -/
def addMessage {α : Type} (s : SessionS α) (text : String) (sender : Sender) : SessionS α :=
  { s with messages := s.messages ++ [(text, sender)] }

/-- Modelled from the spec: `CHAT_RESPONSES.ERROR_GENERIC`, the fixed
generic apology turn substituted on a handler exception
(`src/config/constants.js` is not part of the sources; only the constant's
fixedness matters to the claims). -/
def ERROR_GENERIC : String :=
  "Sorry, something went wrong. Please try again."

/-- The `cvState && cvState.current_step && !cvState.completed` guard of
`sendMessage`. -/
def inCVFlow {α : Type} (cvGen : Option (CVGen.CVFull α)) : Bool :=
  match cvGen with
  | some cs => cs.current_step ≠ "" && !cs.completed
  | none => false

/-- `ChatService.sendMessage`: append the user turn, then either hand off
to the CV flow (which touches only the `cv_generation` context slot) or
dispatch on the detected intent, appending the handler's reply as the
assistant turn; a handler exception is caught, and the fixed apology is
appended and returned instead. -/
def sendMessage {α : Type} (sess : SessionS α) (message : String)
    (handle : Intent → Except Unit String)
    (flow : SessionS α → Option (CVGen.CVFull α) × String) : SessionS α × String :=
  let s1 := addMessage sess message .user
  if inCVFlow s1.cvGen then
    let (cv2, m) := flow s1
    ({ s1 with cvGen := cv2 }, m)
  else
    match handle (detectIntent message) with
    | .ok resp => (addMessage s1 resp .assistant, resp)
    | .error _ => (addMessage s1 ERROR_GENERIC .assistant, ERROR_GENERIC)

end Chat

/-! ### The real-time jobs client (authenticated `chatService.js` variant)

`ChatService._getAPIToken`, `_fetchRealtimeJobs`, `_processJobsResponse`,
`_normalizeJob` and `_parseNumber`.  Upstream HTTP outcomes (login call,
jobs fetch, retry fetch) are explicit parameters; time is an integer epoch
in milliseconds. -/

namespace RT

/-- The module-level token cache (`this.apiToken`, `this.tokenExpiry`). -/
structure TokenCache where
  apiToken : Option String
  tokenExpiry : Option Int
deriving DecidableEq, Repr

/-- Outcome of one login HTTP call: a token was obtained, or anything else
(non-2xx, network error, missing token field) — the code collapses all of
those to "no token". -/
inductive LoginOutcome where
  | success (token : String)
  | failure
deriving DecidableEq, Repr

/-- What one `_getAPIToken` call produced: the token handed back, the cache
it left behind, and whether a login HTTP call was made. -/
structure TokenResult where
  token : Option String
  cache : TokenCache
  didLogin : Bool
deriving DecidableEq, Repr

/-- The login branch of `_getAPIToken` (reached when the cache test
fails): without configured credentials, clear the cache and proceed
unauthenticated; otherwise log in, caching a successful token with
`expiry = now + 1h`, and on any login failure clear the cache and proceed
unauthenticated. -/
def getAPITokenLogin (creds : Bool) (login : LoginOutcome) (now : Int) : TokenResult :=
  if ¬ creds then ⟨none, ⟨none, none⟩, false⟩
  else
    match login with
    | .success token =>
      -- a falsy token field makes the code throw `No token field found`,
      -- which its own catch turns into the unauthenticated path
      if token = "" then ⟨none, ⟨none, none⟩, true⟩
      else ⟨some token, ⟨some token, some (now + 3600 * 1000)⟩, true⟩
    | .failure => ⟨none, ⟨none, none⟩, true⟩

/-- `ChatService._getAPIToken`: reuse the cached token while
`this.apiToken && this.tokenExpiry && Date.now() < tokenExpiry - 300000`
(the 5-minute buffer), otherwise fall through to the login branch. -/
def getAPIToken (cache : TokenCache) (creds : Bool) (login : LoginOutcome) (now : Int) :
    TokenResult :=
  match cache.apiToken, cache.tokenExpiry with
  | some t, some e =>
    if t ≠ "" ∧ e ≠ 0 ∧ now < e - 300000 then ⟨some t, cache, false⟩
    else getAPITokenLogin creds login now
  | _, _ => getAPITokenLogin creds login now

/-- A raw upstream job record: each alias property the normalizer reads,
absent (`none`) or holding a value. -/
structure RawJob where
  id : Option JVal := none
  job_id : Option JVal := none
  ID : Option JVal := none
  title : Option JVal := none
  job_title : Option JVal := none
  position : Option JVal := none
  category : Option JVal := none
  job_category : Option JVal := none
  type : Option JVal := none
  description : Option JVal := none
  job_description : Option JVal := none
  details : Option JVal := none
  requirements : Option JVal := none
  requirement : Option JVal := none
  salary_min : Option JVal := none
  min_salary : Option JVal := none
  minSalary : Option JVal := none
  salary_max : Option JVal := none
  max_salary : Option JVal := none
  maxSalary : Option JVal := none
  salary_currency : Option JVal := none
  currency : Option JVal := none
  location : Option JVal := none
  city : Option JVal := none
  district : Option JVal := none
  area : Option JVal := none
  work_type : Option JVal := none
  employment_type : Option JVal := none
  experience_level : Option JVal := none
  level : Option JVal := none
  education_level : Option JVal := none
  education : Option JVal := none
  status : Option JVal := none
  positions_available : Option JVal := none
  openings : Option JVal := none
  slots : Option JVal := none
  positions_filled : Option JVal := none
  filled : Option JVal := none
  function : Option JVal := none
  posted_date : Option JVal := none
  created_at : Option JVal := none
  date_posted : Option JVal := none
  application_deadline : Option JVal := none
  deadline : Option JVal := none
  closing_date : Option JVal := none
  start_date : Option JVal := none
  views : Option JVal := none
  applications_count : Option JVal := none
deriving DecidableEq, Repr

/-- The normalized job record `_normalizeJob` builds. -/
structure NJob where
  id : JVal
  title : JVal
  category : JVal
  description : JVal
  requirements : JVal
  salary_min : Option Int
  salary_max : Option Int
  salary_currency : JVal
  location : JVal
  work_type : JVal
  experience_level : JVal
  education_level : JVal
  status : String
  positions_available : Int
  positions_filled : Int
  posted_date : JVal
  application_deadline : Option JVal
  start_date : JVal
  views : Int
  applications_count : Int
deriving DecidableEq, Repr

/-- `ChatService._parseNumber`: `null`/`undefined`/`''` give `null`;
otherwise `Number(val)`, kept only when finite and non-negative. -/
def parseNumber (val : Option JVal) : Option Int :=
  match val with
  | none => none
  | some .null => none
  | some (.str "") => none
  | some v =>
    match jsNumber v with
    | none => none
    | some n => if 0 ≤ n then some n else none

/-- `parseInt(..., 10) || d` (the `|| d` turns `NaN` and `0` into `d`). -/
def parseIntOr (v : JVal) (d : Int) : Int :=
  match jsParseInt v with
  | none => d
  | some n => if n = 0 then d else n

/-- `ChatService._normalizeJob`.  `nowISO` is `new Date().toISOString()`
at the call (default `posted_date`).  Returns `null` (`none`) unless the
resolved `id` is truthy. -/
def normalizeJob (raw : RawJob) (nowISO : String) : Option NJob :=
  let job : NJob :=
    { id := jvOr (jvCoalesce raw.id (jvCoalesce raw.job_id raw.ID)) .null
      title := jvOr (jvCoalesce raw.title (jvCoalesce raw.job_title raw.position))
        (.str "Untitled Position")
      category := jvOr (jvCoalesce raw.category (jvCoalesce raw.job_category raw.type))
        (.str "General")
      description := jvOr (jvCoalesce raw.description
        (jvCoalesce raw.job_description raw.details)) (.str "")
      requirements := jvOr raw.requirements (jvOr raw.requirement (.str ""))
      salary_min := parseNumber (jvCoalesce raw.salary_min
        (jvCoalesce raw.min_salary raw.minSalary))
      salary_max := parseNumber (jvCoalesce raw.salary_max
        (jvCoalesce raw.max_salary raw.maxSalary))
      salary_currency := jvOr (jvCoalesce raw.salary_currency raw.currency) (.str "RWF")
      location := jvOr (jvCoalesce raw.location
        (jvCoalesce raw.city (jvCoalesce raw.district raw.area))) (.str "Kigali")
      work_type := jvOr (jvCoalesce raw.work_type
        (jvCoalesce raw.employment_type raw.type)) (.str "full-time")
      experience_level := jvOr (jvCoalesce raw.experience_level raw.level) (.str "entry")
      education_level := jvOr (jvCoalesce raw.education_level raw.education) .null
      status := jsToLower (jsToString (jvOr raw.status (.str "active")))
      positions_available := parseIntOr (jvOr (jvCoalesce raw.positions_available
        (jvCoalesce raw.openings raw.slots)) (.num 1)) 1
      positions_filled := parseIntOr (jvOr (jvCoalesce raw.positions_filled raw.filled)
        (.num 0)) 0
      posted_date := jvOr (jvCoalesce raw.posted_date
        (jvCoalesce raw.created_at raw.date_posted)) (.str nowISO)
      application_deadline := jvCoalesce raw.application_deadline
        (jvCoalesce raw.deadline raw.closing_date)
      start_date := jvOr raw.start_date .null
      views := parseIntOr (jvOr raw.views (.num 0)) 0
      applications_count := parseIntOr (jvOr raw.applications_count (.num 0)) 0 }
  if jvTruthy job.id then some job else none

/-- The upstream response body after `resp.json()`: a bare array, an
object with a `data` array, or anything else (including the `{}` that a
failed `.json()` is replaced by). -/
inductive RawResp where
  | arr (l : List RawJob)
  | dataArr (l : List RawJob)
  | other
deriving Repr

/-- `Array.isArray(raw) ? raw : Array.isArray(raw?.data) ? raw.data : []`. -/
def jobsArrayOf : RawResp → List RawJob
  | .arr l => l
  | .dataArr l => l
  | .other => []

/-- `filters.category`-style presence test (JavaScript string truthiness:
an empty string disables the filter). -/
def presentFilter (o : Option String) : Option String :=
  match o with
  | some s => if s = "" then none else some s
  | none => none

/-- One `if (filters.x) { jobs = jobs.filter(...) }` block: apply the
filter only when the option is present (and truthy). -/
def applyOptFilter {β : Type} (o : Option String) (p : String → β → Bool) (l : List β) :
    List β :=
  match presentFilter o with
  | some x => l.filter (p x)
  | none => l

/-- `(v || '').toLowerCase()` on a `JVal` field of a normalized job. -/
def lowerOrEmpty (v : JVal) : String :=
  jsToLower (jsToString (jvOrElse v (.str "")))

/-- The status/positions filter at the end of `_processJobsResponse`:
drop clearly inactive statuses; keep a job with falsy
`positions_available`; otherwise require open positions. -/
def keepActive (j : NJob) : Bool :=
  let status := jsToLower (if j.status = "" then "active" else j.status)
  if status = "inactive" ∨ status = "closed" ∨ status = "expired" ∨ status = "deleted" then
    false
  else if j.positions_available = 0 then true
  else
    let filled := j.positions_filled
    j.positions_available > filled

/-- `ChatService._processJobsResponse`: extract the array, normalize each
record (dropping `null`s), apply the optional category / location /
work-type filters, then the status/positions filter.  No reordering is
performed.  (`startTime` and the console/logger output are elided.) -/
def processJobsResponse (rawData : RawResp) (filters : JobPrefs) (nowISO : String) :
    List NJob :=
  let jobsArray := jobsArrayOf rawData
  if jobsArray.isEmpty then []
  else
    let normalizedJobs := jobsArray.filterMap (fun r => normalizeJob r nowISO)
    if normalizedJobs.isEmpty then []
    else
      let n1 := applyOptFilter filters.category (fun cat (j : NJob) =>
        containsSub (lowerOrEmpty j.category).data (jsToLower cat).data) normalizedJobs
      let n2 := applyOptFilter filters.location (fun loc (j : NJob) =>
        containsSub (lowerOrEmpty j.location).data (jsToLower loc).data) n1
      let n3 := applyOptFilter filters.work_type (fun t (j : NJob) =>
        lowerOrEmpty j.work_type = jsToLower t) n2
      n3.filter keepActive

/-- Outcome of one upstream jobs-endpoint HTTP call: a response with a
status and parsed body, or a network/timeout failure (`fetch` rejecting). -/
inductive UpResp where
  | http (status : Nat) (body : RawResp)
  | netErr
deriving Repr

/-- `Response.ok`: status in the 2xx range. -/
def respOk (status : Nat) : Bool :=
  200 ≤ status ∧ status ≤ 299

/-- Everything one `_fetchRealtimeJobs` call interacts with: the token
cache it starts from, whether credentials are configured, the outcomes of
the (up to two) login calls and the (up to two) jobs-endpoint calls, the
clock, and the ISO timestamp used for `posted_date` defaults. -/
structure JobsEnv where
  cache : TokenCache
  creds : Bool
  login1 : LoginOutcome
  login2 : LoginOutcome
  resp1 : UpResp
  resp2 : UpResp
  nowMs : Int
  nowISO : String

/-- Trace of one `_fetchRealtimeJobs` call: the returned list, how many
jobs-endpoint requests were sent, the token cache afterwards, and whether
the catch-all error path produced the result. -/
structure FetchOut where
  jobs : List NJob
  fetchCalls : Nat
  cacheAfter : TokenCache
  errorCaught : Bool
deriving Repr

/-- `ChatService._fetchRealtimeJobs`: get a token, call the jobs endpoint;
on a 401 with a token present, clear the cache, get a fresh token and retry
exactly once, failing hard if the retry is not 2xx; any thrown error is
caught by the surrounding catch, which returns `[]`.  The function never
lets an exception escape: every path ends in a `FetchOut`. -/
def fetchRealtimeJobs (env : JobsEnv) (filters : JobPrefs) : FetchOut :=
  let r1 := getAPIToken env.cache env.creds env.login1 env.nowMs
  match env.resp1 with
  | .netErr => ⟨[], 1, r1.cache, true⟩
  | .http status1 body1 =>
    if status1 = 401 ∧ r1.token.isSome then
      let r2 := getAPIToken ⟨none, none⟩ env.creds env.login2 env.nowMs
      match env.resp2 with
      | .netErr => ⟨[], 2, r2.cache, true⟩
      | .http status2 body2 =>
        if respOk status2 then
          ⟨processJobsResponse body2 filters env.nowISO, 2, r2.cache, false⟩
        else ⟨[], 2, r2.cache, true⟩
    else if ¬ respOk status1 then ⟨[], 1, r1.cache, true⟩
    else ⟨processJobsResponse body1 filters env.nowISO, 1, r1.cache, false⟩

end RT

/-! ### The external jobs fetcher (`src/services/jobsService.js`)

The second, standalone implementation of job normalization and fetching
(`normalizeJob`, `fetchExternalJobs`).  Unlike the chat client's
`_processJobsResponse`, `fetchExternalJobs` sorts its output by
`posted_date` descending (`sort((a, b) => String(b.posted_date ||
'').localeCompare(String(a.posted_date || '')))`), modelled as a stable
merge sort under the code-unit lexicographic order `lexLe` (locale-aware
collation coincides with code-unit order on ISO date strings). -/

namespace JobsSvc

/-- Code-unit lexicographic `≤` on character lists (the order
`localeCompare` induces on ISO-formatted date strings). -/
def lexLe : List Char → List Char → Bool
  | [], _ => true
  | _ :: _, [] => false
  | a :: as, b :: bs =>
    if a.toNat = b.toNat then lexLe as bs
    else decide (a.toNat < b.toNat)

/-- `numOrNull`: `Number(v)` when finite, else `null` (no sign
restriction, unlike the chat client's `_parseNumber`). -/
def numOrNull (v : Option JVal) : Option Int :=
  match v with
  | none => none
  | some w => jsNumber w

/-- `intOrNull`: `parseInt(v, 10)` when finite, else `null`. -/
def intOrNull (v : Option JVal) : Option Int :=
  match v with
  | none => none
  | some w => jsParseInt w

/-- Shape test for the ISO date strings (`YYYY-MM-DD`, optionally followed
by a `T...` time part) on which `new Date(v)` is modelled. -/
def isoDateShaped (cs : List Char) : Bool :=
  decide (cs.length ≥ 10) && (cs.take 4).all Char.isDigit &&
    (cs.get? 4 = some '-') && ((cs.drop 5).take 2).all Char.isDigit &&
    (cs.get? 7 = some '-') && ((cs.drop 8).take 2).all Char.isDigit &&
    (decide (cs.length = 10) || cs.get? 10 = some 'T')

/-- `dateOrNull`: `null` for falsy input, else
`new Date(v).toISOString().slice(0, 10)` when the date parses.  `Date`
parsing is modelled on ISO date strings (the only format the upstream data
and the spec assume); every other value is treated as unparsable. -/
def dateOrNull (v : Option JVal) : Option String :=
  match v with
  | none => none
  | some w =>
    if ¬ jvTruthy w then none
    else
      match w with
      | .str s => if isoDateShaped s.data then some (String.mk (s.data.take 10)) else none
      | _ => none

/-- The normalized record `jobsService.normalizeJob` builds. -/
structure Job1 where
  id : JVal
  title : JVal
  category : JVal
  description : JVal
  requirements : JVal
  salary_min : Option Int
  salary_max : Option Int
  salary_currency : JVal
  location : JVal
  work_type : JVal
  experience_level : JVal
  education_level : JVal
  status : JVal
  positions_available : Option Int
  positions_filled : Option Int
  posted_date : Option String
  application_deadline : Option String
  start_date : Option String
  views : Option Int
  applications_count : Option Int
deriving DecidableEq, Repr

/-- `jobsService.normalizeJob`: alias resolution (note the alias lists
differ from the chat client's: `function` for category, no `minSalary`/
`maxSalary`/`openings`, `status` is not lowercased, dates go through
`dateOrNull`), then `if (j.id == null) return null`. -/
def normalizeJob1 (raw : RT.RawJob) : Option Job1 :=
  let j : Job1 :=
    { id := jvOr (jvCoalesce raw.id (jvCoalesce raw.job_id raw.ID)) .null
      title := jvOr (jvCoalesce raw.title (jvCoalesce raw.job_title raw.position))
        (.str "Untitled")
      category := jvOr (jvCoalesce raw.category (jvCoalesce raw.job_category raw.function))
        (.str "General")
      description := jvOr (jvCoalesce raw.description
        (jvCoalesce raw.job_description raw.details)) (.str "")
      requirements := jvOr (jvCoalesce raw.requirements raw.requirement) (.str "")
      salary_min := numOrNull (jvCoalesce raw.salary_min raw.min_salary)
      salary_max := numOrNull (jvCoalesce raw.salary_max raw.max_salary)
      salary_currency :=
        (match raw.salary_currency with
         | some v => jvOrElse v (.str "RWF")
         | none => .str "RWF")
      location := jvOr (jvCoalesce raw.location
        (jvCoalesce raw.city (jvCoalesce raw.district raw.area))) (.str "Kigali")
      work_type := jvOr (jvCoalesce raw.work_type raw.employment_type) (.str "full-time")
      experience_level := jvOr (jvCoalesce raw.experience_level raw.level) (.str "entry")
      education_level := jvOr (jvCoalesce raw.education_level raw.education) .null
      status := jvOrElse (jvOr raw.status (.str "active")) (.str "active")
      positions_available := intOrNull (some (jvOr (jvCoalesce raw.positions_available
        raw.slots) (.num 1)))
      positions_filled := intOrNull (some (jvOr raw.positions_filled (.num 0)))
      posted_date := dateOrNull (jvCoalesce raw.posted_date
        (jvCoalesce raw.created_at raw.date_posted))
      application_deadline := dateOrNull (jvCoalesce raw.application_deadline raw.deadline)
      start_date := dateOrNull raw.start_date
      views := intOrNull (some (jvOr raw.views (.num 0)))
      applications_count := intOrNull (some (jvOr raw.applications_count (.num 0))) }
  if j.id = .null then none else some j

/-- The client-side filters `fetchExternalJobs` accepts. -/
structure JobsFilters where
  status : Option String := none
  category : Option String := none
  location : Option String := none
deriving Repr

/-- `String(j.posted_date || '')` as a character list: the sort key. -/
def dateKey (j : Job1) : List Char :=
  match j.posted_date with
  | some d => d.data
  | none => []

/-- The descending-by-`posted_date` comparator of `fetchExternalJobs`
expressed as a `≤`-style relation (`a` may stay before `b` iff the
comparator is `≤ 0` on `(a, b)`, i.e. iff `key b ≤ key a`). -/
def byDateDesc (a b : Job1) : Bool :=
  lexLe (dateKey b) (dateKey a)

/-- The pre-sort stages of `jobsService.fetchExternalJobs` (whose HTTP
failure paths throw to the caller and produce no list): extract the array,
normalize (`.map(normalizeJob).filter(Boolean)`), and apply the optional
status / category / location filters. -/
def filteredExternalJobs (rawData : RT.RawResp) (filters : JobsFilters) : List Job1 :=
  let list := RT.jobsArrayOf rawData
  let jobs0 := list.filterMap normalizeJob1
  let jobs1 := RT.applyOptFilter filters.status (fun st (j : Job1) =>
    RT.lowerOrEmpty j.status = jsToLower st) jobs0
  let jobs2 := RT.applyOptFilter filters.category (fun cat (j : Job1) =>
    RT.lowerOrEmpty j.category = jsToLower cat) jobs1
  RT.applyOptFilter filters.location (fun loc (j : Job1) =>
    containsSub (RT.lowerOrEmpty j.location).data (jsToLower loc).data) jobs2

/-- `fetchExternalJobs` after the HTTP call: normalize, filter, then
`sort((a, b) => String(b.posted_date || '').localeCompare(String(a.posted_date || '')))`
(stable, newest first). -/
def fetchExternalJobsList (rawData : RT.RawResp) (filters : JobsFilters) : List Job1 :=
  (filteredExternalJobs rawData filters).mergeSort byDateDesc

end JobsSvc

/-! ### The retrieval service (`src/services/ragService.js`) -/

namespace RAG

/-- One result of `vectorService.search`: a document text with its cosine
similarity (modelled as a rational; the code only compares it with the
literal threshold `0.7`). -/
structure SearchResult where
  text : String
  similarity : ℚ

/-- `RAGService.getRelevantContext`: filter the search results to
similarity strictly above `0.7`, join the texts with blank lines; a
throwing search (`Except.error`) is caught and yields `""`. -/
def getRelevantContext (searchOutcome : Except Unit (List SearchResult)) : String :=
  match searchOutcome with
  | .error _ => ""
  | .ok results =>
    String.intercalate "\n\n"
      ((results.filter (fun r => (7 : ℚ)/10 < r.similarity)).map (fun r => r.text))

end RAG

/-! ## Helper lemmas -/

theorem jvCoalesce_of_nullish {a b : Option JVal} (h : jvNullish a = true) :
    jvCoalesce a b = b := by
  unfold jvCoalesce
  simp [h]

/-! ## Claim C1 — CV state machine prefix invariant -/

/-- The invariant: the persisted `completed_steps` is exactly the prefix of
the canonical step order that ends immediately before the persisted
`current_step`. -/
def stepPrefixInv {α : Type} (st : CVGen.CVFull α) : Prop :=
  ∃ k : Nat, CVGen.steps.get? k = some st.current_step ∧
    st.completed_steps = CVGen.steps.take k

theorem stepPrefixInv_init {α : Type} : stepPrefixInv (CVGen.initState α) :=
  ⟨0, rfl, rfl⟩

theorem stepPrefixInv_runStep {α : Type} {st : CVGen.CVFull α} (p : α)
    (h : stepPrefixInv st) : stepPrefixInv (CVGen.runStep st p) := by
  obtain ⟨k, hk, hc⟩ := h
  match k with
  | 0 =>
    have hcur : st.current_step = "contact_info" := by
      simpa [CVGen.steps] using hk.symm
    refine ⟨1, ?_, ?_⟩ <;>
      simp [CVGen.runStep, CVGen.processStepCore, hcur, hc, CVGen.steps, CVGen.jsIndexOf,
        CVGen.stepAt]
  | 1 =>
    have hcur : st.current_step = "professional_summary" := by
      simpa [CVGen.steps] using hk.symm
    refine ⟨2, ?_, ?_⟩ <;>
      simp [CVGen.runStep, CVGen.processStepCore, hcur, hc, CVGen.steps, CVGen.jsIndexOf,
        CVGen.stepAt]
  | 2 =>
    have hcur : st.current_step = "work_experience" := by
      simpa [CVGen.steps] using hk.symm
    refine ⟨3, ?_, ?_⟩ <;>
      simp [CVGen.runStep, CVGen.processStepCore, hcur, hc, CVGen.steps, CVGen.jsIndexOf,
        CVGen.stepAt]
  | 3 =>
    have hcur : st.current_step = "education" := by
      simpa [CVGen.steps] using hk.symm
    refine ⟨4, ?_, ?_⟩ <;>
      simp [CVGen.runStep, CVGen.processStepCore, hcur, hc, CVGen.steps, CVGen.jsIndexOf,
        CVGen.stepAt]
  | 4 =>
    have hcur : st.current_step = "skills" := by
      simpa [CVGen.steps] using hk.symm
    refine ⟨5, ?_, ?_⟩ <;>
      simp [CVGen.runStep, CVGen.processStepCore, hcur, hc, CVGen.steps, CVGen.jsIndexOf,
        CVGen.stepAt]
  | 5 =>
    have hcur : st.current_step = "certifications" := by
      simpa [CVGen.steps] using hk.symm
    refine ⟨6, ?_, ?_⟩ <;>
      simp [CVGen.runStep, CVGen.processStepCore, hcur, hc, CVGen.steps, CVGen.jsIndexOf,
        CVGen.stepAt]
  | 6 =>
    have hcur : st.current_step = "languages" := by
      simpa [CVGen.steps] using hk.symm
    refine ⟨6, ?_, ?_⟩ <;>
      simp [CVGen.runStep, CVGen.processStepCore, hcur, hc, CVGen.steps, CVGen.jsIndexOf,
        CVGen.stepAt]
  | (n + 7) =>
    simp [CVGen.steps] at hk

/-- C1 (confirmed).  For every ordered sequence of successful `processStep`
calls starting from the initial state
`{current_step: contact_info, completed_steps: [], cv_data: {}}`, the
persisted state after each call satisfies: `completed_steps` equals the
prefix of the canonical step order
`[contact_info, ..., languages]` ending immediately before `current_step`
(so no step is ever skipped or repeated). -/
theorem cv_prefix_invariant {α : Type} (payloads : List α) :
    ∃ k : Nat, CVGen.steps.get? k = some (CVGen.runSteps payloads).current_step ∧
      (CVGen.runSteps payloads).completed_steps = CVGen.steps.take k := by
  show stepPrefixInv (CVGen.runSteps payloads)
  unfold CVGen.runSteps
  generalize hst : CVGen.initState α = st
  have hinv : stepPrefixInv st := hst ▸ stepPrefixInv_init
  clear hst
  induction payloads generalizing st with
  | nil => exact hinv
  | cons p ps ih => exact ih _ (stepPrefixInv_runStep p hinv)

/-! ## Claim C2 — step-failure atomicity -/

/-- C2 (confirmed).  When the text-generation response for a CV step
contains no parseable JSON object (`parseStepInput` yields nothing — no
brace-delimited span, or `JSON.parse` failing on it), `processStep` throws
before reaching its save, so the persisted CV state is unchanged
(`current_step` does not advance, `completed_steps` and `cv_data` are
untouched), and the flow handler catches the error and answers with the
please-rephrase re-prompt rather than a session-fatal error. -/
theorem cv_step_failure_atomic {α : Type} (store : Option (CVGen.CVFull α))
    (cvState : CVGen.CVFull α) (message response : String) (parse : String → Option α)
    (hcancel : rxTest Chat.cancelRx (jsToLower message) = false)
    (hparse : CVGen.parseStepInput parse response = none) :
    CVGen.processStepSt store cvState.current_step response parse = (.error (), store) ∧
    Chat.handleCVGenerationFlow store cvState message response parse = (store, .rephrase) := by
  have hps : CVGen.processStepSt store cvState.current_step response parse =
      (.error (), store) := by
    cases store with
    | none => rfl
    | some st => simp [CVGen.processStepSt, hparse]
  refine ⟨hps, ?_⟩
  simp [Chat.handleCVGenerationFlow, hcancel, hps]

/-- Witness for C2: a concrete failing step.  The session is at
`contact_info` with one prior step recorded; the collaborator's response
contains no brace at all, so the step fails and the stored state is
returned unchanged with the re-prompt. -/
theorem cv_step_failure_atomic_witness :
    CVGen.processStepSt (some (CVGen.initState Unit)) (CVGen.initState Unit).current_step
        "no structured data here at all" (fun _ => none) =
      (.error (), some (CVGen.initState Unit)) ∧
    Chat.handleCVGenerationFlow (some (CVGen.initState Unit)) (CVGen.initState Unit)
        "here is my contact info" "no structured data here at all" (fun _ => none) =
      (some (CVGen.initState Unit), .rephrase) :=
  cv_step_failure_atomic (some (CVGen.initState Unit)) (CVGen.initState Unit)
    "here is my contact info" "no structured data here at all" (fun _ => none)
    (by rfl) (by rfl)

/-! ## Claim C3 — `startCVGeneration` resume semantics -/

/-- A stored CV state carrying `completed = true`, exactly as the flow
handler persists it after a cancel (`{...cvState, completed: true}`). -/
def completedStoredState : CVGen.CVFull Unit :=
  { current_step := "skills"
    completed_steps := ["contact_info", "professional_summary", "work_experience", "education"]
    cv_data := []
    completed := true }

/-- C3 counterexample.  The claim says the `hasProgress = true` branch is
taken only when the existing state is not completed; but
`startCVGeneration` only checks that *some* state exists, so on a stored
state with `completed = true` (left behind by a cancelled or finished flow)
it still answers `hasProgress = true` with the resume/restart prompt. -/
theorem startCVGeneration_completed_cex :
    completedStoredState.completed = true ∧
    (CVGen.startCVGeneration (some completedStoredState)).1.hasProgress = true ∧
    (CVGen.startCVGeneration (some completedStoredState)).1.message =
      CVGen.CVPrompt.resumeOrRestart :=
  ⟨rfl, rfl, rfl⟩

/-- C3 (corrected).  `startCVGeneration` resume semantics as the code has
it: whenever *any* CV state is stored for the session — completed or not —
it returns that state's current step with `hasProgress = true` and the
resume/restart prompt and creates no new state; only when no state at all
exists does it create one at `contact_info` and return
`hasProgress = false`. -/
theorem startCVGeneration_resume_semantics {α : Type}
    (existing : Option (CVGen.CVFull α)) :
    ((CVGen.startCVGeneration existing).1.hasProgress = existing.isSome) ∧
    (∀ st : CVGen.CVFull α, existing = some st →
      (CVGen.startCVGeneration existing).2 = existing ∧
      (CVGen.startCVGeneration existing).1.currentStep = st.current_step ∧
      (CVGen.startCVGeneration existing).1.message = CVGen.CVPrompt.resumeOrRestart) ∧
    (existing = none →
      (CVGen.startCVGeneration existing).2 = some (CVGen.initState α) ∧
      (CVGen.startCVGeneration existing).1.currentStep = "contact_info" ∧
      (CVGen.startCVGeneration existing).1.hasProgress = false) := by
  cases existing with
  | none =>
    refine ⟨rfl, fun st h => ?_, fun _ => ⟨rfl, rfl, rfl⟩⟩
    cases h
  | some st =>
    refine ⟨rfl, fun st2 h => ?_, fun h => by cases h⟩
    cases h
    exact ⟨rfl, rfl, rfl⟩

/-- Witness for C3's corrected statement: instantiated on a stored
completed state and on the empty slot. -/
theorem startCVGeneration_resume_semantics_witness :
    (CVGen.startCVGeneration (some completedStoredState)).2 = some completedStoredState ∧
    (CVGen.startCVGeneration (some completedStoredState)).1.currentStep = "skills" ∧
    (CVGen.startCVGeneration (α := Unit) none).1.hasProgress = false :=
  ⟨((startCVGeneration_resume_semantics (some completedStoredState)).2.1
      completedStoredState rfl).1,
   ((startCVGeneration_resume_semantics (some completedStoredState)).2.1
      completedStoredState rfl).2.1,
   ((startCVGeneration_resume_semantics (α := Unit) none).2.2 rfl).2.2⟩

/-! ## Claim C4 — token-cache expiry boundary -/

/-- C4 counterexample.  The claim asserts that with a cached token stored
at `expiry = now0 + 1h`, a request issued at `now0 + 55min` reuses the
cached token without a login call.  The code tests
`Date.now() < tokenExpiry - 300000` *strictly*, and at `now0 + 55min` the
two sides are equal, so the cache is bypassed: a login call is made and the
fresh token — not the cached one — is returned. -/
theorem tokenCache_55min_cex :
    (RT.getAPIToken ⟨some "tok", some 3600000⟩ true (.success "fresh") 3300000).didLogin
        = true ∧
    (RT.getAPIToken ⟨some "tok", some 3600000⟩ true (.success "fresh") 3300000).token
        = some "fresh" := by
  constructor <;> rfl

/-- C4 (corrected).  The cached token is used (returned unchanged, with no
login call) exactly when the current time is *strictly* before
`expiry - 5min`; at or past that boundary — in particular at exactly
`now0 + 55min`, and at `now0 + 56min`, for a token stored with
`expiry = now0 + 1h` — the client treats the token as absent and falls
through to the login branch (logging in again when credentials are
configured, proceeding unauthenticated otherwise). -/
theorem tokenCache_expiry_boundary (t : String) (e now : Int) (creds : Bool)
    (login : RT.LoginOutcome) (ht : t ≠ "") (he : e ≠ 0) :
    (now < e - 300000 →
      RT.getAPIToken ⟨some t, some e⟩ creds login now = ⟨some t, ⟨some t, some e⟩, false⟩) ∧
    (e - 300000 ≤ now →
      RT.getAPIToken ⟨some t, some e⟩ creds login now = RT.getAPITokenLogin creds login now) ∧
    (∀ n0 : Int, RT.getAPIToken ⟨some t, some (n0 + 3600000)⟩ creds login (n0 + 3300000) =
      RT.getAPITokenLogin creds login (n0 + 3300000)) ∧
    (∀ n0 : Int, RT.getAPIToken ⟨some t, some (n0 + 3600000)⟩ creds login (n0 + 3360000) =
      RT.getAPITokenLogin creds login (n0 + 3360000)) := by
  refine ⟨fun h => ?_, fun h => ?_, fun n0 => ?_, fun n0 => ?_⟩
  · simp [RT.getAPIToken, ht, he, h]
  · have : ¬ (now < e - 300000) := not_lt.mpr h
    simp [RT.getAPIToken, this]
  · have : ¬ (n0 + 3300000 < n0 + 3600000 - 300000) := by omega
    simp [RT.getAPIToken, this]
  · have : ¬ (n0 + 3360000 < n0 + 3600000 - 300000) := by omega
    simp [RT.getAPIToken, this]

/-- Witness for C4's corrected statement: a cached token with
`expiry = 1h` is reused one millisecond before the 55-minute mark and
refreshed at the 56-minute mark. -/
theorem tokenCache_expiry_boundary_witness :
    RT.getAPIToken ⟨some "tok", some 3600000⟩ true (.success "fresh") 3299999 =
      ⟨some "tok", ⟨some "tok", some 3600000⟩, false⟩ ∧
    RT.getAPIToken ⟨some "tok", some 3600000⟩ true (.success "fresh") 3360000 =
      RT.getAPITokenLogin true (.success "fresh") 3360000 :=
  ⟨(tokenCache_expiry_boundary "tok" 3600000 3299999 true (.success "fresh")
      (by decide) (by decide)).1 (by norm_num),
   ((tokenCache_expiry_boundary "tok" 3600000 3360000 true (.success "fresh")
      (by decide) (by decide)).2.2.2 0).symm ▸
    ((tokenCache_expiry_boundary "tok" 3600000 3360000 true (.success "fresh")
      (by decide) (by decide)).2.1 (by norm_num))⟩

/-! ## Claim C5 — 401 retry policy -/

/-- Helper for C5: whenever `_fetchRealtimeJobs` takes its catch-all error
path, it hands back the empty job list (it never rethrows). -/
theorem jobs_fetch_error_empty (env : RT.JobsEnv) (filters : JobPrefs) :
    (RT.fetchRealtimeJobs env filters).errorCaught = true →
    (RT.fetchRealtimeJobs env filters).jobs = [] := by
  unfold RT.fetchRealtimeJobs
  rcases env.resp1 with ⟨status1, body1⟩ | _
  · dsimp only
    split
    · rcases env.resp2 with ⟨status2, body2⟩ | _
      · dsimp only
        split <;> simp
      · simp
    · split <;> simp
  · simp

/-- C5 (confirmed).  On an HTTP 401 from the jobs endpoint while a cached
token was sent (the token came from the cache: no login call was made for
it), the client clears the token cache, acquires a fresh token (its cache
state afterwards is exactly that of a token acquisition started from an
empty cache), and retries the fetch exactly once (two jobs-endpoint calls
in total); if the retried request also fails — any non-2xx status,
including a second 401, or a network error — the call returns the empty
job list.  And on *every* input, any caught failure yields `[]` rather
than an exception: `_fetchRealtimeJobs` never propagates an error to its
caller. -/
theorem jobs_401_retry_policy (env : RT.JobsEnv) (filters : JobPrefs) (t : String)
    (body1 : RT.RawResp)
    (htok : (RT.getAPIToken env.cache env.creds env.login1 env.nowMs).token = some t)
    (hnologin : (RT.getAPIToken env.cache env.creds env.login1 env.nowMs).didLogin = false)
    (h401 : env.resp1 = .http 401 body1) :
    (RT.fetchRealtimeJobs env filters).fetchCalls = 2 ∧
    (RT.fetchRealtimeJobs env filters).cacheAfter =
      (RT.getAPIToken ⟨none, none⟩ env.creds env.login2 env.nowMs).cache ∧
    (∀ status2 body2, env.resp2 = .http status2 body2 → RT.respOk status2 = false →
      (RT.fetchRealtimeJobs env filters).jobs = []) ∧
    (env.resp2 = .netErr → (RT.fetchRealtimeJobs env filters).jobs = []) ∧
    (∀ env2 filters2, (RT.fetchRealtimeJobs env2 filters2).errorCaught = true →
      (RT.fetchRealtimeJobs env2 filters2).jobs = []) := by
  have hcond : (401 : Nat) = 401 ∧ (RT.getAPIToken env.cache env.creds env.login1
      env.nowMs).token.isSome = true := ⟨rfl, by simp [htok]⟩
  refine ⟨?_, ?_, ?_, ?_, fun env2 filters2 => jobs_fetch_error_empty env2 filters2⟩
  · unfold RT.fetchRealtimeJobs
    rcases h2 : env.resp2 with ⟨status2, body2⟩ | _ <;>
      simp [h401, h2, hcond] <;> split <;> rfl
  · unfold RT.fetchRealtimeJobs
    rcases h2 : env.resp2 with ⟨status2, body2⟩ | _ <;>
      simp [h401, h2, hcond] <;> split <;> rfl
  · intro status2 body2 h2 hnotok
    unfold RT.fetchRealtimeJobs
    simp [h401, h2, hcond, hnotok]
  · intro h2
    unfold RT.fetchRealtimeJobs
    simp [h401, h2, hcond]

/-- Witness for C5: a concrete fetch in which a valid cached token is sent,
the first call gets a 401 and the retry gets a second 401 — two calls, an
empty result, no exception. -/
theorem jobs_401_retry_policy_witness :
    (RT.fetchRealtimeJobs
      { cache := ⟨some "tok", some 3600000⟩, creds := true, login1 := .success "f1",
        login2 := .success "f2", resp1 := .http 401 .other, resp2 := .http 401 .other,
        nowMs := 0, nowISO := "N" } {}).fetchCalls = 2 ∧
    (RT.fetchRealtimeJobs
      { cache := ⟨some "tok", some 3600000⟩, creds := true, login1 := .success "f1",
        login2 := .success "f2", resp1 := .http 401 .other, resp2 := .http 401 .other,
        nowMs := 0, nowISO := "N" } {}).jobs = [] := by
  have h := jobs_401_retry_policy
    { cache := ⟨some "tok", some 3600000⟩, creds := true, login1 := .success "f1",
      login2 := .success "f2", resp1 := .http 401 .other, resp2 := .http 401 .other,
      nowMs := 0, nowISO := "N" } {} "tok" .other rfl rfl rfl
  exact ⟨h.1, h.2.2.1 401 .other rfl rfl⟩

/-! ## Claim C6 — `normalizeJob` test vector and id requirement -/

theorem jvOr_of_nullish {a : Option JVal} {b : JVal} (h : jvNullish a = true) :
    jvOr a b = b := by
  unfold jvOr
  rw [jvCoalesce_of_nullish h]

/-- C6 (confirmed).  `_normalizeJob` on
`{job_id: 7, min_salary: "1000", slots: "2"}` yields a job with `id = 7`,
`salary_min = 1000`, `positions_available = 2`, `status = "active"` and the
default values for every other field (`posted_date` defaulting to the
fetch-time ISO timestamp, `application_deadline` staying `undefined`);
and every raw record in which none of `id`, `job_id`, `ID` resolves to a
non-nullish value normalizes to `null` and contributes nothing to the
normalized output list. -/
theorem normalizeJob_vector_and_id (nowISO : String) (raw : RT.RawJob)
    (xs ys : List RT.RawJob)
    (h1 : jvNullish raw.id = true) (h2 : jvNullish raw.job_id = true)
    (h3 : jvNullish raw.ID = true) :
    RT.normalizeJob
        { job_id := some (.num 7), min_salary := some (.str "1000"),
          slots := some (.str "2") } nowISO = some
      { id := .num 7, title := .str "Untitled Position", category := .str "General",
        description := .str "", requirements := .str "", salary_min := some 1000,
        salary_max := none, salary_currency := .str "RWF", location := .str "Kigali",
        work_type := .str "full-time", experience_level := .str "entry",
        education_level := .null, status := "active", positions_available := 2,
        positions_filled := 0, posted_date := .str nowISO, application_deadline := none,
        start_date := .null, views := 0, applications_count := 0 } ∧
    RT.normalizeJob raw nowISO = none ∧
    (xs ++ raw :: ys).filterMap (fun r => RT.normalizeJob r nowISO) =
      (xs ++ ys).filterMap (fun r => RT.normalizeJob r nowISO) := by
  have hnone : RT.normalizeJob raw nowISO = none := by
    unfold RT.normalizeJob
    rw [jvCoalesce_of_nullish h2, jvCoalesce_of_nullish h1, jvOr_of_nullish h3]
    rfl
  refine ⟨rfl, hnone, ?_⟩
  rw [List.filterMap_append, List.filterMap_append, List.filterMap_cons, hnone]

/-- Witness for C6: a record with no id alias at all (`{}`) is dropped from
a concrete list. -/
theorem normalizeJob_vector_and_id_witness :
    RT.normalizeJob ({} : RT.RawJob) "2024-01-01T00:00:00.000Z" = none ∧
    ([({} : RT.RawJob)] ++ ({} : RT.RawJob) :: []).filterMap
        (fun r => RT.normalizeJob r "2024-01-01T00:00:00.000Z") =
      ([({} : RT.RawJob)] ++ []).filterMap
        (fun r => RT.normalizeJob r "2024-01-01T00:00:00.000Z") :=
  ⟨(normalizeJob_vector_and_id "2024-01-01T00:00:00.000Z" {} [] [] rfl rfl rfl).2.1,
   (normalizeJob_vector_and_id "2024-01-01T00:00:00.000Z" {} [{}] [] rfl rfl rfl).2.2⟩

/-! ## Claim C7 — jobs output ordering -/

theorem lexLe_total (as bs : List Char) :
    (JobsSvc.lexLe as bs || JobsSvc.lexLe bs as) = true := by
  induction as generalizing bs with
  | nil => cases bs <;> simp [JobsSvc.lexLe]
  | cons a as ih =>
    cases bs with
    | nil => simp [JobsSvc.lexLe]
    | cons b bs =>
      simp only [JobsSvc.lexLe]
      by_cases h : a.toNat = b.toNat
      · rw [if_pos h, if_pos h.symm]
        exact ih bs
      · have h2 : ¬ b.toNat = a.toNat := fun hh => h hh.symm
        simp only [if_neg h, if_neg h2]
        rw [Bool.or_eq_true, decide_eq_true_iff, decide_eq_true_iff]
        omega

theorem lexLe_trans (as bs cs : List Char) (h1 : JobsSvc.lexLe as bs = true)
    (h2 : JobsSvc.lexLe bs cs = true) : JobsSvc.lexLe as cs = true := by
  induction as generalizing bs cs with
  | nil => simp [JobsSvc.lexLe]
  | cons a as ih =>
    cases bs with
    | nil => simp [JobsSvc.lexLe] at h1
    | cons b bs =>
      cases cs with
      | nil => simp [JobsSvc.lexLe] at h2
      | cons c cs =>
        simp only [JobsSvc.lexLe] at h1 h2 ⊢
        rcases eq_or_ne a.toNat b.toNat with hab | hab
        · rcases eq_or_ne b.toNat c.toNat with hbc | hbc
          · rw [if_pos hab] at h1
            rw [if_pos hbc] at h2
            rw [if_pos (hab.trans hbc)]
            exact ih bs cs h1 h2
          · rw [if_neg hbc] at h2
            have hbc2 : b.toNat < c.toNat := by simpa using h2
            have hac : ¬ a.toNat = c.toNat := by omega
            rw [if_neg hac]
            simp only [decide_eq_true_iff]
            omega
        · rw [if_neg hab] at h1
          have hab2 : a.toNat < b.toNat := by simpa using h1
          rcases eq_or_ne b.toNat c.toNat with hbc | hbc
          · have hac : ¬ a.toNat = c.toNat := by omega
            rw [if_neg hac]
            simp only [decide_eq_true_iff]
            omega
          · rw [if_neg hbc] at h2
            have hbc2 : b.toNat < c.toNat := by simpa using h2
            have hac : ¬ a.toNat = c.toNat := by omega
            rw [if_neg hac]
            simp only [decide_eq_true_iff]
            omega

theorem byDateDesc_trans (a b c : JobsSvc.Job1) (h1 : JobsSvc.byDateDesc a b = true)
    (h2 : JobsSvc.byDateDesc b c = true) : JobsSvc.byDateDesc a c = true :=
  lexLe_trans _ _ _ h2 h1

theorem byDateDesc_total (a b : JobsSvc.Job1) :
    (JobsSvc.byDateDesc a b || JobsSvc.byDateDesc b a) = true :=
  lexLe_total (JobsSvc.dateKey b) (JobsSvc.dateKey a)

theorem lexLe_nil_right {xs : List Char} (h : JobsSvc.lexLe xs [] = true) : xs = [] := by
  cases xs with
  | nil => rfl
  | cons x xs => simp [JobsSvc.lexLe] at h

theorem applyOptFilter_sublist {β : Type} (o : Option String) (p : String → β → Bool)
    (l : List β) : (RT.applyOptFilter o p l).Sublist l := by
  unfold RT.applyOptFilter
  cases RT.presentFilter o with
  | none => exact List.Sublist.refl l
  | some x => exact List.filter_sublist l

/-- Upstream record with the older post date, listed first. -/
def rawOlderFirst : RT.RawJob :=
  { id := some (.num 1), posted_date := some (.str "2020-01-01") }

/-- Upstream record with the newer post date, listed second. -/
def rawNewerSecond : RT.RawJob :=
  { id := some (.num 2), posted_date := some (.str "2021-01-01") }

/-- C7 counterexample.  The jobs fetch backing the chat "jobs" intent
(`_processJobsResponse`) performs no sort: on an upstream response listing
an older posting before a newer one, the output keeps that order, so its
`posted_date`s are strictly ascending — not sorted descending as
claimed. -/
theorem processJobsResponse_unsorted_cex :
    ((RT.processJobsResponse (.arr [rawOlderFirst, rawNewerSecond]) {} "N").map
        RT.NJob.posted_date) = [.str "2020-01-01", .str "2021-01-01"] ∧
    JobsSvc.lexLe "2021-01-01".data "2020-01-01".data = false := by
  exact ⟨rfl, rfl⟩

/-- C7 (corrected).  The sort-by-`posted_date`-descending behaviour belongs
to `jobsService.fetchExternalJobs` alone: its output is pairwise ordered by
the descending date comparator (lexicographically on the date strings, an
absent date comparing as the empty string and therefore sinking to the end:
once a record with an empty key appears, every later record's key is
empty), and is a permutation of the normalized, filtered records.  The chat
client's `_processJobsResponse` does not reorder at all: its output is a
sublist (order-preserving selection) of the normalized records in upstream
order. -/
theorem jobs_output_ordering :
    (∀ rawData filters, List.Pairwise (fun a b => JobsSvc.byDateDesc a b = true)
        (JobsSvc.fetchExternalJobsList rawData filters)) ∧
    (∀ rawData filters, (JobsSvc.fetchExternalJobsList rawData filters).Perm
        (JobsSvc.filteredExternalJobs rawData filters)) ∧
    (∀ rawData filters, List.Pairwise
        (fun a b => JobsSvc.dateKey a = [] → JobsSvc.dateKey b = [])
        (JobsSvc.fetchExternalJobsList rawData filters)) ∧
    (∀ rawData filters nowISO, (RT.processJobsResponse rawData filters nowISO).Sublist
        ((RT.jobsArrayOf rawData).filterMap (fun r => RT.normalizeJob r nowISO))) := by
  have hsorted : ∀ rawData filters, List.Pairwise
      (fun a b => JobsSvc.byDateDesc a b = true)
      (JobsSvc.fetchExternalJobsList rawData filters) := by
    intro rawData filters
    exact List.sorted_mergeSort byDateDesc_trans byDateDesc_total
      (JobsSvc.filteredExternalJobs rawData filters)
  refine ⟨hsorted, ?_, ?_, ?_⟩
  · intro rawData filters
    exact List.mergeSort_perm (JobsSvc.filteredExternalJobs rawData filters) _
  · intro rawData filters
    refine (hsorted rawData filters).imp ?_
    intro a b h ha
    have : JobsSvc.lexLe (JobsSvc.dateKey b) [] = true := by
      simpa [JobsSvc.byDateDesc, ha] using h
    exact lexLe_nil_right this
  · intro rawData filters nowISO
    unfold RT.processJobsResponse
    dsimp only
    split
    · exact List.nil_sublist _
    · split
      · exact List.nil_sublist _
      · refine ((List.filter_sublist _).trans ?_)
        refine (applyOptFilter_sublist _ _ _).trans ?_
        refine (applyOptFilter_sublist _ _ _).trans ?_
        exact applyOptFilter_sublist _ _ _

/-- Witness for C7's corrected statement: instantiated on the concrete
two-record upstream response used by the counterexample. -/
theorem jobs_output_ordering_witness :
    List.Pairwise (fun a b => JobsSvc.byDateDesc a b = true)
      (JobsSvc.fetchExternalJobsList (.arr [rawOlderFirst, rawNewerSecond]) {}) ∧
    (RT.processJobsResponse (.arr [rawOlderFirst, rawNewerSecond]) {} "N").Sublist
      ((RT.jobsArrayOf (.arr [rawOlderFirst, rawNewerSecond])).filterMap
        (fun r => RT.normalizeJob r "N")) :=
  ⟨jobs_output_ordering.1 (.arr [rawOlderFirst, rawNewerSecond]) {},
   jobs_output_ordering.2.2.2 (.arr [rawOlderFirst, rawNewerSecond]) {} "N"⟩

/-! ## Claim C8 — retrieval threshold and graceful degradation -/

/-- C8 (confirmed).  `getRelevantContext` returns exactly the texts of the
search results with cosine similarity strictly greater than `0.7`, joined
with blank-line separators; when no result clears the threshold it returns
the empty string, and when the underlying search fails it catches the error
and returns the empty string instead of throwing. -/
theorem rag_threshold_and_degradation :
    (∀ e : Unit, RAG.getRelevantContext (.error e) = "") ∧
    (∀ results : List RAG.SearchResult,
      (∀ r ∈ results, r.similarity ≤ 7/10) →
      RAG.getRelevantContext (.ok results) = "") ∧
    (∀ results : List RAG.SearchResult, RAG.getRelevantContext (.ok results) =
      String.intercalate "\n\n"
        ((results.filter (fun r => (7 : ℚ)/10 < r.similarity)).map (fun r => r.text))) := by
  refine ⟨fun _ => rfl, fun results h => ?_, fun _ => rfl⟩
  have hnil : results.filter (fun r => (7 : ℚ)/10 < r.similarity) = [] := by
    rw [List.filter_eq_nil_iff]
    intro a ha
    simpa using not_lt.mpr (h a ha)
  show String.intercalate "\n\n"
      ((results.filter (fun r => (7 : ℚ)/10 < r.similarity)).map (fun r => r.text)) = ""
  rw [hnil]
  rfl

/-- Witness for C8: a ties-at-threshold result set (similarity exactly
`0.7` does not qualify) yields the empty string, as does a failed
search. -/
theorem rag_threshold_witness :
    RAG.getRelevantContext (.ok [⟨"docA", 7/10⟩, ⟨"docB", 1/2⟩]) = "" ∧
    RAG.getRelevantContext (.error ()) = "" :=
  ⟨rag_threshold_and_degradation.2.1 [⟨"docA", 7/10⟩, ⟨"docB", 1/2⟩] (by
      intro r hr
      simp only [List.mem_cons, List.not_mem_nil, or_false] at hr
      rcases hr with hr | hr <;> subst hr <;> norm_num),
   rag_threshold_and_degradation.1 ()⟩

/-! ## Claim C9 — intent classification priority and test vectors -/

/-- C9 (confirmed).  `_detectIntent` is a pure function over the lowercased
message that evaluates its pattern groups in the fixed order
cv_generation, jobs, job_application, general and returns exactly the first
matching category (the four characterizations below are mutually exclusive
and exhaustive); and on the spec's test vectors: "Help me write a CV" is
cv_generation, "Show me available cleaning jobs in Kigali" is jobs with
extracted preferences `{category: cleaning, location: kigali}`, "How do I
apply for a job" is job_application, and "What is Kozi?" is general. -/
theorem intent_classification :
    (∀ msg : String, detectIntent msg = .cv_generation ↔
      cvIntentMatch (jsToLower msg) = true) ∧
    (∀ msg : String, detectIntent msg = .jobs ↔
      (cvIntentMatch (jsToLower msg) = false ∧ jobsIntentMatch (jsToLower msg) = true)) ∧
    (∀ msg : String, detectIntent msg = .job_application ↔
      (cvIntentMatch (jsToLower msg) = false ∧ jobsIntentMatch (jsToLower msg) = false ∧
        appIntentMatch (jsToLower msg) = true)) ∧
    (∀ msg : String, detectIntent msg = .general ↔
      (cvIntentMatch (jsToLower msg) = false ∧ jobsIntentMatch (jsToLower msg) = false ∧
        appIntentMatch (jsToLower msg) = false)) ∧
    detectIntent "Help me write a CV" = .cv_generation ∧
    detectIntent "Show me available cleaning jobs in Kigali" = .jobs ∧
    extractJobPreferences "Show me available cleaning jobs in Kigali" =
      { category := some "cleaning", location := some "kigali", work_type := none } ∧
    detectIntent "How do I apply for a job" = .job_application ∧
    detectIntent "What is Kozi?" = .general := by
  refine ⟨?_, ?_, ?_, ?_, rfl, rfl, rfl, rfl, rfl⟩ <;>
    (intro msg
     unfold detectIntent
     dsimp only
     split_ifs with h1 h2 h3 <;> simp_all)

/-- Witness for C9: the cv_generation characterization applied forward and
backward on a fresh input. -/
theorem intent_classification_witness :
    detectIntent "i need a resume" = Intent.cv_generation :=
  (intent_classification.1 "i need a resume").mpr (by rfl)

/-! ## Claim C10 — orchestrator error containment -/

/-- C10 (confirmed).  `sendMessage` appends the inbound user message to the
session transcript before anything else — on every execution path the
resulting transcript extends the old one with the user turn first — and
when the dispatched intent handler raises, `sendMessage` catches the
exception, appends the fixed generic apology as the assistant turn and
returns that apology to the caller; no handler exception propagates (the
result is a plain session/reply pair on every input). -/
theorem orchestrator_error_containment {α : Type} :
    (∀ (sess : Chat.SessionS α) (msg : String) (handle : Intent → Except Unit String)
        (flow : Chat.SessionS α → Option (CVGen.CVFull α) × String),
      ∃ rest, (Chat.sendMessage sess msg handle flow).1.messages =
        sess.messages ++ (msg, Chat.Sender.user) :: rest) ∧
    (∀ (sess : Chat.SessionS α) (msg : String) (handle : Intent → Except Unit String)
        (flow : Chat.SessionS α → Option (CVGen.CVFull α) × String) (e : Unit),
      Chat.inCVFlow sess.cvGen = false →
      handle (detectIntent msg) = .error e →
      Chat.sendMessage sess msg handle flow =
        (Chat.addMessage (Chat.addMessage sess msg .user) Chat.ERROR_GENERIC .assistant,
          Chat.ERROR_GENERIC)) := by
  constructor
  · intro sess msg handle flow
    unfold Chat.sendMessage
    dsimp only
    split
    · rcases hf : flow (Chat.addMessage sess msg Chat.Sender.user) with ⟨cv2, m⟩
      refine ⟨[], ?_⟩
      simp [hf, Chat.addMessage]
    · cases hh : handle (detectIntent msg) with
      | ok resp =>
        refine ⟨[(resp, Chat.Sender.assistant)], ?_⟩
        simp [hh, Chat.addMessage]
      | error e =>
        refine ⟨[(Chat.ERROR_GENERIC, Chat.Sender.assistant)], ?_⟩
        simp [hh, Chat.addMessage]
  · intro sess msg handle flow e hcv hh
    unfold Chat.sendMessage
    have hcv2 : Chat.inCVFlow (Chat.addMessage sess msg Chat.Sender.user).cvGen = false := hcv
    simp [hcv2, hh]

/-- Witness for C10: a concrete session whose handler throws — the user
turn is recorded, the apology is appended and returned. -/
theorem orchestrator_error_containment_witness :
    Chat.sendMessage (α := Unit) ⟨[], none⟩ "hello there"
        (fun _ => .error ()) (fun _ => (none, "")) =
      (⟨[("hello there", .user), (Chat.ERROR_GENERIC, .assistant)], none⟩,
        Chat.ERROR_GENERIC) := by
  have h := (orchestrator_error_containment (α := Unit)).2 ⟨[], none⟩ "hello there"
    (fun _ => .error ()) (fun _ => (none, "")) () rfl rfl
  rw [h]
  rfl

end Kozi
